import Mathlib

/-!
Shallow embedding of `minifold`'s caching layer (`src/cache.py`).

The embedding models:
  * dynamic Python values flowing through the cache (`PyVal`),
  * Python exceptions (`Err`) via `Except` / explicit error components,
  * the query type of `minifold.query` (a string key plus an action kind),
  * the filesystem as a map from paths to file records carrying a
    last-modified timestamp, plus a writability flag for the cache
    directory,
  * the abstract orchestrator `CacheConnector` (its `read`, `write`,
    `query` methods and the "Must be overloaded" defaults), and
  * the filesystem storage strategy `StorageCacheConnector`
    (`make_cache_filename`, `is_fresh_cache`, `is_cached`,
    `callback_read`, `callback_write`, `clear_query`).

Time is modelled as an integer timestamp passed explicitly where the
source calls `datetime.datetime.utcnow()`; TTLs (`datetime.timedelta`
or `None`) are modelled as `Option Int`, with Python truthiness of a
timedelta (`if lifetime:`) captured by `tdTruthy`.
-/

/-- Dynamic Python values: the untyped data that flows between the child
connector, the serializers and the cache files. Tuples, lists and dicts
are modelled structurally. -/
inductive PyVal where
  | none : PyVal
  | bool (b : Bool) : PyVal
  | int (n : Int) : PyVal
  | str (s : String) : PyVal
  | list (xs : List PyVal) : PyVal
  | tuple (xs : List PyVal) : PyVal
  | dict (kvs : List (String × PyVal)) : PyVal

/-- Python exceptions relevant to the cache layer: `RuntimeError` (used by
the "Must be overloaded" defaults), OS/I-O errors, and value/decode
errors raised by a serializer. -/
inductive Err where
  | runtime (msg : String) : Err
  | osError : Err
  | valueError : Err
deriving DecidableEq, Repr

/-- Action kinds of `minifold.query.Query`. Modelled from the spec: the
request "carries an action kind (at minimum distinguishes read from
other actions)"; the source imports `ACTION_READ` from
`minifold.query`, which is not under `src/`. -/
inductive QueryAction where
  | read : QueryAction
  | create : QueryAction
  | update : QueryAction
  | delete : QueryAction
deriving DecidableEq, Repr

/-- Modelled from the spec: `minifold.query.Query` is not under `src/`;
the spec requires only that a request expose an action kind and a
deterministic string form (`str(query)`), used as the cache key. -/
structure Query where
  strForm : String
  action : QueryAction
deriving DecidableEq, Repr

/-- A cache entry file: its content is `some v` when a serializer dump
completed and stored `v`, `none` when the file exists but holds no
successfully dumped value (for example, `open(path, "w")` truncated the
file and the dump then raised); `mtime` is the last-modified
timestamp. -/
structure FileRecord where
  content : Option PyVal
  mtime : Int

/-- The filesystem: a partial map from paths to file records, plus a flag
saying whether the cache directory is writable
(`check_writable_directory` succeeds iff `writable` is true). -/
structure FS where
  files : String → Option FileRecord
  writable : Bool

/-- Store (or delete, with `none`) the record at path `p`. -/
def FS.setFile (fs : FS) (p : String) (r : Option FileRecord) : FS :=
  { fs with files := fun p2 => if p2 = p then r else fs.files p2 }

/-- Modelled from the spec: `minifold.filesystem.mtime` (not under `src/`)
returns the modification time of a path, raising an OS error when the
path does not exist. -/
def mtime (fs : FS) (p : String) : Except Err Int :=
  match fs.files p with
  | some r => .ok r.mtime
  | Option.none => .error .osError

/-- Modelled from the spec: `Connector.answer` of `minifold.connector`
(not under `src/`) is the response-shaping step "used to present the
final answer uniformly whether served from cache or from delegation";
it is modelled as the identity shaping of the data. -/
def Connector.answer (_q : Query) (data : PyVal) : PyVal :=
  data

/-- The capability record of a storage strategy, as consumed by the
orchestrator `CacheConnector`: in the source these are the methods that
a subclass may override. `callback_read` returns the Python 2-tuple
`(data, success)` as a single dynamic value (that is what the source's
`data = self.callback_read(query)` receives); `callback_write` returns
the possibly-mutated filesystem together with the exception it raised,
if any (a raise can happen after the entry file was already opened). -/
structure CacheMethods where
  callback_read : Query → FS → Except Err PyVal
  callback_write : Query → PyVal → FS → FS × Option Err
  is_cached : Query → FS → Except Err Bool
  is_cachable : Query → PyVal → Bool
  clear_query : Query → FS → FS

/-- The `CacheConnector` base class's own method bodies: `callback_read`,
`callback_write` and `is_cached` raise `RuntimeError("Must be
overloaded")`; `is_cachable` returns `True`; `clear_query` is a
no-op. -/
def baseMethods : CacheMethods where
  callback_read := fun _ _ => .error (.runtime "Must be overloaded")
  callback_write := fun _ _ fs => (fs, some (.runtime "Must be overloaded"))
  is_cached := fun _ _ => .error (.runtime "Must be overloaded")
  is_cachable := fun _ _ => true
  clear_query := fun _ fs => fs

/-- Method `CacheConnector.read`: initializes `(data, success) = (None, False)`,
then tries `data = self.callback_read(query); success = True`; a bare
`except` catches any exception, logs, and falls through to
`return (data, success)`. -/
def CacheConnector.read (m : CacheMethods) (q : Query) (fs : FS) : PyVal × Bool :=
  match m.callback_read q fs with
  | .ok d => (d, true)
  | .error _ => (PyVal.none, false)

/-- Method `CacheConnector.write`: `success = True`, try `callback_write`; a bare
`except` catches any exception, logs, and sets `success = False`;
returns `success`, alongside the (possibly mutated) filesystem. -/
def CacheConnector.write (m : CacheMethods) (q : Query) (d : PyVal) (fs : FS) : FS × Bool :=
  match m.callback_write q d fs with
  | (fs2, Option.none) => (fs2, true)
  | (fs2, some _) => (fs2, false)

/-- Result of one `CacheConnector.query` invocation: the returned value,
the filesystem afterwards, and two ghost observation flags recording
whether `self.child.query` was invoked and whether `self.write` was
invoked during this call. -/
structure QueryResult where
  value : PyVal
  fs : FS
  childCalled : Bool
  writeCalled : Bool

/-- Method `CacheConnector.query`: `(data, success) = (None, False)`; if
`is_cached(query)` then `(data, success) = self.read(query)` (the
source destructures `read`'s pair here); if not `success`, delegate
`data = self.child.query(query)`; if the action is `ACTION_READ` and
`is_cachable(query, data)`, call `self.write(query, data)` (note: in
the source this step is outside the `if not success:` block); return
`self.answer(query, data)`. `is_cached` is called unprotected, so an
exception it raises propagates to the caller. The child connector is
modelled as a total function `Query → PyVal`. -/
def CacheConnector.query (m : CacheMethods) (child : Query → PyVal) (q : Query) (fs : FS) :
    Except Err QueryResult := do
  let cached ← m.is_cached q fs
  let (data, success) := if cached then CacheConnector.read m q fs else (PyVal.none, false)
  let (data, childCalled) := if success then (data, false) else (child q, true)
  let (fs2, writeCalled) :=
    if q.action = QueryAction.read ∧ m.is_cachable q data then
      ((CacheConnector.write m q data fs).1, true)
    else (fs, false)
  pure ⟨Connector.answer q data, fs2, childCalled, writeCalled⟩

/-- Configuration of `StorageCacheConnector`, all fixed at construction:
the TTL (`lifetime`, a `datetime.timedelta` or `None`), the cache
directory, the filename extension, and the injected serializer pair.
`callback_load` consumes the content of an opened entry file (raising
on an empty/partial file or a decode failure); `callback_dump` produces
the content to store, or raises. The read/write mode strings have no
observable effect in this model and are omitted. -/
structure StorageConfig where
  lifetime : Option Int
  cache_dir : String
  extension : String
  callback_load : Option PyVal → Except Err PyVal
  callback_dump : PyVal → Except Err PyVal

/-- Python truthiness of the `lifetime` value: `None` and the zero
timedelta are falsy, every other duration (including negative ones) is
truthy. This is the test `if lifetime:` in `is_fresh_cache`. -/
def tdTruthy : Option Int → Bool
  | Option.none => false
  | some d => d != 0

/-- Method `StorageCacheConnector.make_cache_filename`:
`os.path.join(self.cache_dir, str(query) + self.extension)`. -/
def StorageCacheConnector.make_cache_filename (cfg : StorageConfig) (q : Query) : String :=
  cfg.cache_dir ++ "/" ++ q.strForm ++ cfg.extension

/-- Method `StorageCacheConnector.is_fresh_cache`: `is_fresh = True`; if
`lifetime` is truthy, set `is_fresh = (t_now - t_cache) < lifetime`
where `t_cache = mtime(cache_filename)` (which raises when the file
does not exist); return `is_fresh`. `t_now` is the current UTC time,
passed explicitly. -/
def StorageCacheConnector.is_fresh_cache (fs : FS) (t_now : Int) (cache_filename : String)
    (lifetime : Option Int) : Except Err Bool :=
  match lifetime with
  | Option.none => .ok true
  | some d =>
    if d = 0 then .ok true
    else do
      let t_cache ← mtime fs cache_filename
      pure (decide (t_now - t_cache < d))

/-- Method `StorageCacheConnector.is_cached`: `ret = False`; if the entry file
exists, `ret = is_fresh_cache(cache_filename, self.lifetime)`; return
`ret`. -/
def StorageCacheConnector.is_cached (cfg : StorageConfig) (t_now : Int) (q : Query) (fs : FS) :
    Except Err Bool :=
  let cache_filename := StorageCacheConnector.make_cache_filename cfg q
  if (fs.files cache_filename).isSome then
    StorageCacheConnector.is_fresh_cache fs t_now cache_filename cfg.lifetime
  else .ok false

/-- Method `StorageCacheConnector.callback_read`: `(data, success) = (None,
False)`; if `self.is_cached(query)`, open the entry file (raising when
it is missing) and `data = self.callback_load(f); success = True`;
return the Python pair `(data, success)` as one dynamic value. -/
def StorageCacheConnector.callback_read (cfg : StorageConfig) (t_now : Int) (q : Query)
    (fs : FS) : Except Err PyVal := do
  let cache_filename := StorageCacheConnector.make_cache_filename cfg q
  let c ← StorageCacheConnector.is_cached cfg t_now q fs
  if c then
    match fs.files cache_filename with
    | some r => do
      let data ← cfg.callback_load r.content
      pure (PyVal.tuple [data, PyVal.bool true])
    | Option.none => .error .osError
  else
    pure (PyVal.tuple [PyVal.none, PyVal.bool false])

/-- Method `StorageCacheConnector.callback_write`: `mkdir(directory)` then
`check_writable_directory(directory)` (modelled from the spec:
`minifold.filesystem` is not under `src/`; it raises when the directory
is not writable, before any file is touched); then `open(cache_filename,
self.write_mode)` creates/truncates the entry file, and
`self.callback_dump(data, f)` encodes into it. A dump failure
propagates as an exception but leaves the truncated file behind, with
no successfully dumped content. -/
def StorageCacheConnector.callback_write (cfg : StorageConfig) (t_now : Int) (q : Query)
    (data : PyVal) (fs : FS) : FS × Option Err :=
  let cache_filename := StorageCacheConnector.make_cache_filename cfg q
  if fs.writable then
    match cfg.callback_dump data with
    | .ok content => (fs.setFile cache_filename (some ⟨some content, t_now⟩), Option.none)
    | .error e => (fs.setFile cache_filename (some ⟨Option.none, t_now⟩), some e)
  else (fs, some .osError)

/-- Method `StorageCacheConnector.clear_query`: if the entry file exists, remove
it (`rm` modelled from the spec: `minifold.filesystem.remove`); no-op
otherwise. -/
def StorageCacheConnector.clear_query (cfg : StorageConfig) (q : Query) (fs : FS) : FS :=
  let cache_filename := StorageCacheConnector.make_cache_filename cfg q
  if (fs.files cache_filename).isSome then fs.setFile cache_filename Option.none
  else fs

/-- The capability record of a `StorageCacheConnector` instance at a given
current time: the storage strategy's overriding methods, with
`is_cachable` inherited from `CacheConnector` (always true). -/
def storageMethods (cfg : StorageConfig) (t_now : Int) : CacheMethods where
  callback_read := StorageCacheConnector.callback_read cfg t_now
  callback_write := StorageCacheConnector.callback_write cfg t_now
  is_cached := StorageCacheConnector.is_cached cfg t_now
  is_cachable := baseMethods.is_cachable
  clear_query := StorageCacheConnector.clear_query cfg

/-- A serializer load that faithfully decodes whatever a dump stored,
raising a decode error on an empty/partial file. -/
def idealLoad : Option PyVal → Except Err PyVal
  | some v => .ok v
  | Option.none => .error .valueError

/-- A serializer dump that always succeeds and stores the value itself. -/
def idealDump : PyVal → Except Err PyVal := fun v => .ok v

/-- Scenario configuration: TTL one hour (3600 seconds), an ideal
round-tripping serializer pair. -/
def cfgA : StorageConfig where
  lifetime := some 3600
  cache_dir := "cache"
  extension := ".json"
  callback_load := idealLoad
  callback_dump := idealDump

/-- The request Q1 of the spec's scenarios: a read-action query with
string form "Q1". -/
def q1 : Query := ⟨"Q1", QueryAction.read⟩

/-- An empty, writable cache directory. -/
def fs0 : FS := ⟨fun _ => Option.none, true⟩

/-- The child response of Scenario A: the JSON object with one key "a"
bound to 1. -/
def dictA1 : PyVal := PyVal.dict [("a", PyVal.int 1)]

/-- The cache state right after Scenario A's first query: the entry file
for Q1 holds the child's response, last modified at time 0. -/
def fsQ1 : FS := fs0.setFile "cache/Q1.json" (some ⟨some dictA1, 0⟩)

/-- The scenario configuration with a zero-duration TTL. -/
def cfgZero : StorageConfig := { cfgA with lifetime := some 0 }

/-- The scenario configuration with a serializer dump that always raises
(for example, `json.dump` on a non-JSON-serializable response). -/
def cfgBadDump : StorageConfig := { cfgA with callback_dump := fun _ => .error .valueError }

/-- A storage strategy that supplies `is_cached` (always true) and
`callback_write` (a successful no-op) but leaves `callback_read` at the
base class's "Must be overloaded" default. -/
def mReadFail : CacheMethods :=
  { baseMethods with
    is_cached := fun _ _ => .ok true
    callback_write := fun _ _ fs => (fs, Option.none) }

/-- The spec's freshness side of the `is_cached` invariant, written from
the claim's words: the entry file exists at the derived path and either
the TTL is the no-expiry marker or now minus the file's last-modified
time is strictly below the TTL. -/
def specCachedRhs (cfg : StorageConfig) (t_now : Int) (q : Query) (fs : FS) : Prop :=
  match fs.files (StorageCacheConnector.make_cache_filename cfg q), cfg.lifetime with
  | some _, Option.none => True
  | some r, some L => t_now - r.mtime < L
  | Option.none, _ => False

/-- C10: a TTL equal to the zero duration is treated exactly like the
no-expiry marker: `is_fresh_cache(path, zero-duration)` returns true
for every path and every current time, exactly as with TTL `None`, so
an entry written under a zero TTL is considered fresh indefinitely. -/
theorem C10_zero_ttl_is_no_expiry :
    ∀ (fs : FS) (t_now : Int) (cache_filename : String),
      StorageCacheConnector.is_fresh_cache fs t_now cache_filename (some 0) = .ok true ∧
      StorageCacheConnector.is_fresh_cache fs t_now cache_filename (some 0) =
        StorageCacheConnector.is_fresh_cache fs t_now cache_filename Option.none := by
  intro fs t_now cache_filename
  exact ⟨rfl, rfl⟩

/-- C2 (code bug): with an entry cached for Q1, `read` returns the whole
`(decoded, True)` pair from `callback_read` as its data component and
reports success unconditionally, instead of returning
`(decoded, true)`; and for a non-cached query, `read` returns
`((None, False), true)` — success true — instead of `(None, false)`,
because `CacheConnector.read` assigns `callback_read`'s tuple to `data`
without destructuring it. -/
theorem C2_read_does_not_destructure :
    CacheConnector.read (storageMethods cfgA 0) q1 fsQ1
      = (PyVal.tuple [dictA1, PyVal.bool true], true) ∧
    PyVal.tuple [dictA1, PyVal.bool true] ≠ dictA1 ∧
    CacheConnector.read (storageMethods cfgA 0) q1 fs0
      = (PyVal.tuple [PyVal.none, PyVal.bool false], true) := by
  refine ⟨rfl, fun h => PyVal.noConfusion h, rfl⟩

/-- C3 (code bug): Scenario A on the code: with an empty cache and the
child answering the object `{"a": 1}`, the first `query(Q1)` returns
that object and writes the entry, and the second `query(Q1)` is indeed
served from the cache without calling the child — but its result is the
pair `({"a": 1}, True)` produced by the non-destructured
`callback_read` tuple, not `{"a": 1}`, so the two responses are not
identical. -/
theorem C3_second_query_result_differs :
    (CacheConnector.query (storageMethods cfgA 0) (fun _ => dictA1) q1 fs0 >>= fun r1 =>
      (CacheConnector.query (storageMethods cfgA 0) (fun _ => dictA1) q1 r1.fs).map fun r2 =>
        (r1.value, r2.value, r2.childCalled))
      = .ok (dictA1, PyVal.tuple [dictA1, PyVal.bool true], false) ∧
    PyVal.tuple [dictA1, PyVal.bool true] ≠ dictA1 := by
  refine ⟨rfl, fun h => PyVal.noConfusion h⟩

/-- C5 (code bug): a `query` served from a fresh cache hit (the child is
not called) still invokes `write`, because the cacheability block sits
outside the `if not success:` branch; the entry file's content is
observably rewritten from the stored response to the `(data, True)`
pair. -/
theorem C5_hit_triggers_write :
    (CacheConnector.query (storageMethods cfgA 10) (fun _ => dictA1) q1 fsQ1).toOption.map
      (fun r => (r.childCalled, r.writeCalled,
        (r.fs.files "cache/Q1.json").map (fun fr => fr.content)))
      = some (false, true, some (some (PyVal.tuple [dictA1, PyVal.bool true]))) ∧
    (fsQ1.files "cache/Q1.json").map (fun fr => fr.content) = some (some dictA1) := by
  exact ⟨rfl, rfl⟩

/-- C1: the orchestrator's fail-soft boundary. Any exception raised by
`callback_read` is caught and `read` returns `(None, false)`; any
exception raised by `callback_write` is caught and `write` returns
success `false`; and when every `callback_read` raises (while
`is_cached` itself returns normally), `query(q)` returns normally and
its result is exactly the wrapped connector's result `child q`. -/
theorem C1_fail_soft_boundary :
    (∀ (m : CacheMethods) (q : Query) (fs : FS) (e : Err),
      m.callback_read q fs = .error e → CacheConnector.read m q fs = (PyVal.none, false)) ∧
    (∀ (m : CacheMethods) (q : Query) (d : PyVal) (fs fs2 : FS) (e : Err),
      m.callback_write q d fs = (fs2, some e) → CacheConnector.write m q d fs = (fs2, false)) ∧
    (∀ (m : CacheMethods) (child : Query → PyVal) (q : Query) (fs : FS) (b : Bool),
      m.is_cached q fs = .ok b →
      (∀ (q2 : Query) (fs2 : FS), ∃ e, m.callback_read q2 fs2 = .error e) →
      ∃ r : QueryResult, CacheConnector.query m child q fs = .ok r ∧ r.value = child q) := by
  refine ⟨?_, ?_, ?_⟩
  · intro m q fs e h
    simp [CacheConnector.read, h]
  · intro m q d fs fs2 e h
    simp [CacheConnector.write, h]
  · intro m child q fs b hic hfail
    obtain ⟨e, he⟩ := hfail q fs
    have hread : CacheConnector.read m q fs = (PyVal.none, false) := by
      simp [CacheConnector.read, he]
    by_cases hw : q.action = QueryAction.read ∧ m.is_cachable q (child q)
    · refine ⟨⟨child q, (CacheConnector.write m q (child q) fs).1, true, true⟩, ?_, rfl⟩
      simp [CacheConnector.query, hic, hread, Connector.answer, hw]
    · refine ⟨⟨child q, fs, true, false⟩, ?_, rfl⟩
      simp [CacheConnector.query, hic, hread, Connector.answer, hw]

/-- C1 witness: the fail-soft boundary evaluated at a concrete strategy
whose `callback_read` is the raising base default: `read` reports
failure, `write` reports failure on the raising base `callback_write`,
and `query` returns the child's concrete answer. -/
theorem C1_fail_soft_boundary_witness :
    CacheConnector.read mReadFail q1 fs0 = (PyVal.none, false) ∧
    CacheConnector.write baseMethods q1 (PyVal.int 7) fs0 = (fs0, false) ∧
    ∃ r : QueryResult, CacheConnector.query mReadFail (fun _ => PyVal.int 7) q1 fs0 = .ok r ∧
      r.value = PyVal.int 7 :=
  ⟨C1_fail_soft_boundary.1 mReadFail q1 fs0 (.runtime "Must be overloaded") rfl,
   C1_fail_soft_boundary.2.1 baseMethods q1 (PyVal.int 7) fs0 fs0
     (.runtime "Must be overloaded") rfl,
   C1_fail_soft_boundary.2.2 mReadFail (fun _ => PyVal.int 7) q1 fs0 true rfl
     (fun _ _ => ⟨.runtime "Must be overloaded", rfl⟩)⟩

/-- C6 counterexample: a storage strategy that supplies `is_cached`
(always true) and a working `callback_write` but not `callback_read`:
during `query` the base `callback_read` raises its contract-violation
`RuntimeError`, yet `query` returns normally with the child's answer —
the bare `except` in `read` silently converts the violation into a
cache-miss-style degradation instead of surfacing it. -/
theorem C6_missing_callback_read_degrades :
    CacheConnector.query mReadFail (fun _ => PyVal.int 7) q1 fs0
      = .ok ⟨PyVal.int 7, fs0, true, true⟩ := by
  rfl

/-- C6 amended: only a contract violation in `is_cached` surfaces to
`query`'s caller (it is called unprotected, so its exception
propagates); a missing `callback_read` or `callback_write` is caught at
the `read`/`write` fail-soft boundary and converted into a failure
flag. -/
theorem C6_only_is_cached_violation_surfaces :
    (∀ (m : CacheMethods) (child : Query → PyVal) (q : Query) (fs : FS) (e : Err),
      m.is_cached q fs = .error e →
      CacheConnector.query m child q fs = .error e) ∧
    (∀ (m : CacheMethods) (q : Query) (fs : FS),
      m.callback_read = baseMethods.callback_read →
      CacheConnector.read m q fs = (PyVal.none, false)) ∧
    (∀ (m : CacheMethods) (q : Query) (d : PyVal) (fs : FS),
      m.callback_write = baseMethods.callback_write →
      CacheConnector.write m q d fs = (fs, false)) := by
  refine ⟨?_, ?_, ?_⟩
  · intro m child q fs e h
    simp [CacheConnector.query, h]
  · intro m q fs h
    simp [CacheConnector.read, h, baseMethods]
  · intro m q d fs h
    simp [CacheConnector.write, h, baseMethods]

/-- C6 witness: with the base strategy (no method supplied), `query`
itself raises the contract-violation error, while the base
`callback_read` and `callback_write` are absorbed by `read` and
`write`. -/
theorem C6_only_is_cached_violation_surfaces_witness :
    CacheConnector.query baseMethods (fun _ => PyVal.int 7) q1 fs0
      = .error (.runtime "Must be overloaded") ∧
    CacheConnector.read baseMethods q1 fs0 = (PyVal.none, false) ∧
    CacheConnector.write baseMethods q1 (PyVal.int 7) fs0 = (fs0, false) :=
  ⟨C6_only_is_cached_violation_surfaces.1 baseMethods (fun _ => PyVal.int 7) q1 fs0
     (.runtime "Must be overloaded") rfl,
   C6_only_is_cached_violation_surfaces.2.1 baseMethods q1 fs0 rfl,
   C6_only_is_cached_violation_surfaces.2.2 baseMethods q1 (PyVal.int 7) fs0 rfl⟩

/-- An empty cache directory that is not writable
(`check_writable_directory` raises for it). -/
def fsRO : FS := ⟨fun _ => Option.none, false⟩

/-- C7 amended: when every write fails at the directory-writability check
(before the entry file is opened) — here, the cache directory is not
writable — a read-action `query(q)` with no pre-existing entry still
returns exactly the wrapped connector's result, and the stored state is
completely unchanged; but a write that fails during encoding leaves a
truncated entry file behind (see the counterexample), so "no entry is
observably created" holds only for failures before the file is
opened. -/
theorem C7_unwritable_write_fail_soft :
    ∀ (cfg : StorageConfig) (t : Int) (child : Query → PyVal) (q : Query) (fs : FS),
      fs.writable = false →
      fs.files (StorageCacheConnector.make_cache_filename cfg q) = Option.none →
      q.action = QueryAction.read →
      CacheConnector.query (storageMethods cfg t) child q fs = .ok ⟨child q, fs, true, true⟩ := by
  intro cfg t child q fs hw hf ha
  rw [StorageCacheConnector.make_cache_filename] at hf
  simp [CacheConnector.query, storageMethods, StorageCacheConnector.is_cached, hf,
    CacheConnector.write, StorageCacheConnector.callback_write, hw, ha,
    Connector.answer, baseMethods, StorageCacheConnector.make_cache_filename]

/-- C7 witness: the unwritable-directory fail-soft theorem evaluated at a
concrete configuration, child and query. -/
theorem C7_unwritable_write_fail_soft_witness :
    CacheConnector.query (storageMethods cfgA 0) (fun _ => PyVal.int 5) q1 fsRO
      = .ok ⟨PyVal.int 5, fsRO, true, true⟩ :=
  C7_unwritable_write_fail_soft cfgA 0 (fun _ => PyVal.int 5) q1 fsRO rfl rfl rfl

/-- C7 counterexample: force every write to fail during encoding
(`callback_dump` always raises, as `json.dump` does on a
non-serializable response). `query(Q1)` on an empty cache still returns
the wrapped connector's result, but `open(path, "w")` has already
created the entry file: afterwards the file exists and `is_cached(Q1)`
is even true — an entry is observably created, refuting the claim's
"the stored state for q is unchanged by the failed write attempt". -/
theorem C7_encode_failure_creates_entry :
    (fs0.files "cache/Q1.json").isSome = false ∧
    (CacheConnector.query (storageMethods cfgBadDump 0) (fun _ => dictA1) q1 fs0).toOption.map
      (fun r => (r.value, (r.fs.files "cache/Q1.json").isSome,
        (StorageCacheConnector.is_cached cfgBadDump 0 q1 r.fs).toOption))
      = some (dictA1, true, some true) := by
  exact ⟨rfl, rfl⟩

/-- C4 counterexample: with the zero-duration TTL (a duration value, not
the no-expiry marker) and an entry last modified at time 0, at time 5
`is_cached(Q1)` returns true, although the claim's characterization
(now minus last-modified strictly below the TTL) is false there —
`if lifetime:` treats the zero timedelta as falsy and skips the
freshness comparison. -/
theorem C4_zero_ttl_counterexample :
    StorageCacheConnector.is_cached cfgZero 5 q1 fsQ1 = .ok true ∧
    ¬ specCachedRhs cfgZero 5 q1 fsQ1 := by
  refine ⟨rfl, ?_⟩
  intro h
  have h2 : (5 : Int) - 0 < 0 := h
  omega

/-- C4 amended: for every TTL that is neither the no-expiry marker nor
the zero duration, `is_cached(q)` is true iff the entry file exists at
the derived path and (TTL is no-expiry or now minus last-modified is
strictly below the TTL); and for every positive TTL `L`, after a write
succeeding at time `t0` (which sets the entry's last-modified time to
`t0`), `is_cached(q)` is true for all times `t` in `[t0, t0 + L)` and
false for all `t ≥ t0 + L`. (The original claim fails only for the
zero-duration TTL, which the code treats as no-expiry.) -/
theorem C4_is_cached_characterization :
    (∀ (cfg : StorageConfig) (t_now : Int) (q : Query) (fs : FS),
      cfg.lifetime ≠ some 0 →
      (StorageCacheConnector.is_cached cfg t_now q fs = .ok true ↔
        specCachedRhs cfg t_now q fs)) ∧
    (∀ (cfg : StorageConfig) (t0 : Int) (q : Query) (d : PyVal) (fs fs2 : FS) (L : Int),
      cfg.lifetime = some L → 0 < L →
      StorageCacheConnector.callback_write cfg t0 q d fs = (fs2, Option.none) →
      ∀ t : Int,
        (t0 ≤ t → t < t0 + L → StorageCacheConnector.is_cached cfg t q fs2 = .ok true) ∧
        (t0 + L ≤ t → StorageCacheConnector.is_cached cfg t q fs2 = .ok false)) := by
  constructor
  · intro cfg t_now q fs hL
    unfold StorageCacheConnector.is_cached specCachedRhs StorageCacheConnector.is_fresh_cache mtime
    cases hfp : fs.files (StorageCacheConnector.make_cache_filename cfg q) with
    | none => simp [hfp]
    | some r =>
      cases hlt : cfg.lifetime with
      | none => simp [hfp, hlt]
      | some L =>
        have hL0 : L ≠ 0 := fun h => hL (by rw [hlt, h])
        simp [hfp, hlt, hL0]
  · intro cfg t0 q d fs fs2 L hL hLpos hw t
    unfold StorageCacheConnector.callback_write at hw
    by_cases hwr : fs.writable
    · rw [if_pos hwr] at hw
      cases hd : cfg.callback_dump d with
      | error e => rw [hd] at hw; simp at hw
      | ok c =>
        rw [hd] at hw
        have hfs2 : fs2 = fs.setFile (StorageCacheConnector.make_cache_filename cfg q)
            (some ⟨some c, t0⟩) := by
          have := congrArg Prod.fst hw
          exact this.symm
        subst hfs2
        have hL0 : L ≠ 0 := by omega
        constructor
        · intro h1 h2
          simp [StorageCacheConnector.is_cached, StorageCacheConnector.is_fresh_cache, mtime,
            FS.setFile, hL, hL0]
          omega
        · intro h1
          simp [StorageCacheConnector.is_cached, StorageCacheConnector.is_fresh_cache, mtime,
            FS.setFile, hL, hL0]
          omega
    · rw [if_neg hwr] at hw
      simp at hw

/-- C4 witness: the characterization at the one-hour TTL configuration,
and the freshness window after the concrete write of Scenario A (done
at time 0): still cached at time 10, expired at time 3600. -/
theorem C4_is_cached_characterization_witness :
    (StorageCacheConnector.is_cached cfgA 0 q1 fsQ1 = .ok true ↔
      specCachedRhs cfgA 0 q1 fsQ1) ∧
    StorageCacheConnector.is_cached cfgA 10 q1 fsQ1 = .ok true ∧
    StorageCacheConnector.is_cached cfgA 3600 q1 fsQ1 = .ok false :=
  ⟨C4_is_cached_characterization.1 cfgA 0 q1 fsQ1 (by decide),
   (C4_is_cached_characterization.2 cfgA 0 q1 dictA1 fs0 fsQ1 3600 rfl (by decide) rfl 10).1
     (by decide) (by decide),
   (C4_is_cached_characterization.2 cfgA 0 q1 dictA1 fs0 fsQ1 3600 rfl (by decide) rfl 3600).2
     (by decide)⟩

/-- Distinct key strings map to distinct entry paths: the derived path
shares the directory prefix and the extension suffix, so it is
injective in the request's string form. -/
lemma make_cache_filename_injective (cfg : StorageConfig) (q q2 : Query)
    (h : q.strForm ≠ q2.strForm) :
    StorageCacheConnector.make_cache_filename cfg q ≠
      StorageCacheConnector.make_cache_filename cfg q2 := by
  intro he
  apply h
  unfold StorageCacheConnector.make_cache_filename at he
  have hd := congrArg String.data he
  simp only [String.data_append] at hd
  have h1 := List.append_cancel_right hd
  have h2 := List.append_cancel_left h1
  exact congrArg String.mk h2

/-- A second request with a different key, also cached in Scenario C. -/
def q2 : Query := ⟨"Q2", QueryAction.read⟩

/-- C8: `clear_query(q1)` deletes exactly the single entry file derived
from `q1` when present (every other path is untouched) and is a no-op
otherwise; afterwards a `query(q1)` is a miss — it delegates to the
wrapped connector and returns its result — while `is_cached(q2)` for
any request with a distinct key is unchanged. -/
theorem C8_clear_query_point_invalidation :
    (∀ (cfg : StorageConfig) (q : Query) (fs : FS) (r : FileRecord),
      fs.files (StorageCacheConnector.make_cache_filename cfg q) = some r →
      (StorageCacheConnector.clear_query cfg q fs).files
          (StorageCacheConnector.make_cache_filename cfg q) = Option.none ∧
      ∀ p, p ≠ StorageCacheConnector.make_cache_filename cfg q →
        (StorageCacheConnector.clear_query cfg q fs).files p = fs.files p) ∧
    (∀ (cfg : StorageConfig) (q : Query) (fs : FS),
      fs.files (StorageCacheConnector.make_cache_filename cfg q) = Option.none →
      StorageCacheConnector.clear_query cfg q fs = fs) ∧
    (∀ (cfg : StorageConfig) (t : Int) (child : Query → PyVal) (q : Query) (fs : FS),
      ∃ r2 : QueryResult,
        CacheConnector.query (storageMethods cfg t) child q
          (StorageCacheConnector.clear_query cfg q fs) = .ok r2 ∧
        r2.value = child q ∧ r2.childCalled = true) ∧
    (∀ (cfg : StorageConfig) (t : Int) (q q2a : Query) (fs : FS),
      q.strForm ≠ q2a.strForm →
      StorageCacheConnector.is_cached cfg t q2a (StorageCacheConnector.clear_query cfg q fs) =
        StorageCacheConnector.is_cached cfg t q2a fs) := by
  refine ⟨?_, ?_, ?_, ?_⟩
  · intro cfg q fs r hr
    constructor
    · simp [StorageCacheConnector.clear_query, hr, FS.setFile]
    · intro p hp
      simp [StorageCacheConnector.clear_query, hr, FS.setFile, hp]
  · intro cfg q fs hr
    simp [StorageCacheConnector.clear_query, hr]
  · intro cfg t child q fs
    have hmiss : (StorageCacheConnector.clear_query cfg q fs).files
        (StorageCacheConnector.make_cache_filename cfg q) = Option.none := by
      unfold StorageCacheConnector.clear_query
      cases hfp : fs.files (StorageCacheConnector.make_cache_filename cfg q) with
      | none => simp [hfp]
      | some r => simp [hfp, FS.setFile]
    have hic : (storageMethods cfg t).is_cached q (StorageCacheConnector.clear_query cfg q fs)
        = .ok false := by
      simp [storageMethods, StorageCacheConnector.is_cached, hmiss]
    by_cases hw2 : q.action = QueryAction.read ∧
      (storageMethods cfg t).is_cachable q (child q)
    · refine ⟨⟨child q, (CacheConnector.write (storageMethods cfg t) q (child q)
        (StorageCacheConnector.clear_query cfg q fs)).1, true, true⟩, ?_, rfl, rfl⟩
      simp [CacheConnector.query, hic, Connector.answer, hw2]
    · refine ⟨⟨child q, StorageCacheConnector.clear_query cfg q fs, true, false⟩, ?_, rfl, rfl⟩
      simp [CacheConnector.query, hic, Connector.answer, hw2]
  · intro cfg t q q2a fs hne
    unfold StorageCacheConnector.clear_query
    cases hfp : fs.files (StorageCacheConnector.make_cache_filename cfg q) with
    | none => simp [hfp]
    | some r =>
      have hpne : StorageCacheConnector.make_cache_filename cfg q2a ≠
          StorageCacheConnector.make_cache_filename cfg q :=
        make_cache_filename_injective cfg q2a q (fun hh => hne hh.symm)
      simp [hfp, StorageCacheConnector.is_cached, StorageCacheConnector.is_fresh_cache, mtime,
        FS.setFile, hpne]

/-- C8 witness: `clear_query(Q1)` on Scenario A's cache deletes Q1's entry
file, leaves the path of Q2 untouched, is a no-op on the empty cache,
makes the next `query(Q1)` delegate to the child, and leaves
`is_cached(Q2)` unchanged. -/
theorem C8_clear_query_point_invalidation_witness :
    (StorageCacheConnector.clear_query cfgA q1 fsQ1).files
        (StorageCacheConnector.make_cache_filename cfgA q1) = Option.none ∧
    (StorageCacheConnector.clear_query cfgA q1 fsQ1).files "cache/Q2.json"
      = fsQ1.files "cache/Q2.json" ∧
    StorageCacheConnector.clear_query cfgA q1 fs0 = fs0 ∧
    (∃ r2 : QueryResult,
      CacheConnector.query (storageMethods cfgA 0) (fun _ => dictA1) q1
        (StorageCacheConnector.clear_query cfgA q1 fsQ1) = .ok r2 ∧
      r2.value = dictA1 ∧ r2.childCalled = true) ∧
    StorageCacheConnector.is_cached cfgA 0 q2 (StorageCacheConnector.clear_query cfgA q1 fsQ1)
      = StorageCacheConnector.is_cached cfgA 0 q2 fsQ1 :=
  ⟨(C8_clear_query_point_invalidation.1 cfgA q1 fsQ1 ⟨some dictA1, 0⟩ rfl).1,
   (C8_clear_query_point_invalidation.1 cfgA q1 fsQ1 ⟨some dictA1, 0⟩ rfl).2
     "cache/Q2.json" (by decide),
   C8_clear_query_point_invalidation.2.1 cfgA q1 fs0 rfl,
   C8_clear_query_point_invalidation.2.2.1 cfgA 0 (fun _ => dictA1) q1 fsQ1,
   C8_clear_query_point_invalidation.2.2.2 cfgA 0 q1 q2 fsQ1 (by decide)⟩
